import Mathlib

/-!
Verification of `src/pdf_to_images.py` (survey-responses-parsing).

The program converts each page of a PDF into an image file:
validate the source path, create the output directory, open the
document through the external rendering library (PyMuPDF / `fitz`),
then for each page build a uniform scale matrix from the requested
DPI, rasterize the page and save it under
`{output}/master_page_{page_num+1}.{img_format}`.

The embedding below models the external collaborator abstractly
(whether `fitz.open` succeeds and with which page count, the page
geometry, the rounding convention of `get_pixmap`, and whether
`pix.save` succeeds on a given filename) and translates the body of
`convert_pdf_to_images` into a pure function returning an exit code,
an event trace, and the final map of output files.
-/

namespace PdfToImages

/-! ### Path handling (`pathlib.Path.suffix`, `str.lower`) -/

/-- Model of `str.lower` for the suffix comparison: character-wise lowering. -/
def strLower (s : String) : String :=
  String.mk (s.data.map Char.toLower)

/-- Splitting a character list on a separator, keeping empty groups. -/
def splitChars (sep : Char) : List Char → List (List Char)
  | [] => [[]]
  | c :: cs =>
    if c = sep then [] :: splitChars sep cs
    else
      match splitChars sep cs with
      | [] => [[c]]
      | g :: gs => (c :: g) :: gs

/-- The components of `Path(s)` after its final anchor: `pathlib` drops
empty components and single-dot components when parsing. -/
def pathComponents (s : String) : List (List Char) :=
  (splitChars '/' s.data).filter (fun c => c ≠ [] ∧ c ≠ ['.'])

/-- Model of `Path(s).name`: the final path component. -/
def nameOf (s : String) : List Char :=
  (pathComponents s).getLastD []

/-- Index of the last occurrence of `'.'` in a character list
(`str.rfind('.')` restricted to found/not-found). -/
def lastDotIdx (cs : List Char) : Option Nat :=
  ((List.range cs.length).filter (fun i => cs.getD i ' ' = '.')).getLast?

/-- Model of `Path(s).suffix`: the extension of the final component. CPython
returns the tail `name[i:]` from the last dot when `0 < i < len(name) - 1`,
and the empty string otherwise (no dot, leading dot, or trailing dot). -/
def suffixOf (s : String) : String :=
  let cs := nameOf s
  match lastDotIdx cs with
  | some i => if 0 < i ∧ i + 1 < cs.length then String.mk (cs.drop i) else ""
  | none => ""

/-! ### Decimal rendering of the page number (the f-string `{page_num + 1}`) -/

/-- Decimal digit characters of `n`, most significant first, with enough
fuel: the decimal rendering used by the f-string
`master_page_{page_num + 1}`. -/
def decDigitsCore : Nat → Nat → List Char
  | 0, _ => []
  | fuel + 1, n =>
    if n < 10 then [Nat.digitChar n]
    else decDigitsCore fuel (n / 10) ++ [Nat.digitChar (n % 10)]

/-- Decimal digit characters of `n`, most significant first. -/
def decDigits (n : Nat) : List Char :=
  decDigitsCore (n + 1) n

/-- Decimal string of `n`. -/
def decStr (n : Nat) : String :=
  String.mk (decDigits n)

/-! ### The external collaborator (`fitz`) -/

/-- An affine transform (`fitz.Matrix`); `fitz.Matrix(x, y)` is the
diagonal zoom matrix. Only the two zoom entries matter to this program. -/
structure Matrix where
  a : ℚ
  b : ℚ
  c : ℚ
  d : ℚ
  e : ℚ
  f : ℚ
deriving DecidableEq

/-- Construction `fitz.Matrix(zoom_x, zoom_y)`. -/
def fitzMatrixZoom (x y : ℚ) : Matrix :=
  ⟨x, 0, 0, y, 0, 0⟩

/-- A rasterized page (`fitz.Pixmap`): identified by the page it renders
and its pixel dimensions. -/
structure Pixmap where
  page : Nat
  width : Nat
  height : Nat
deriving DecidableEq

/-- An open document handle: page count, per-page base geometry at the
72-DPI baseline, and the collaborator's rounding convention for pixel
dimensions under a zoom. -/
structure Doc where
  pageCount : Nat
  pageWidth : Nat → ℚ
  pageHeight : Nat → ℚ
  pixRound : ℚ → Nat

/-- Model of `page.get_pixmap(matrix=mat)`: pixel dimensions are the base
dimensions scaled by the diagonal zoom entries, rounded per the
collaborator's convention. -/
def getPixmap (doc : Doc) (n : Nat) (m : Matrix) : Pixmap :=
  ⟨n, doc.pixRound (doc.pageWidth n * m.a), doc.pixRound (doc.pageHeight n * m.d)⟩

/-- The ambient behavior of the outside world for one run: whether the
source path is an existing regular file (`Path.is_file`), the outcome of
`fitz.open` on it, and the outcome of `pix.save` per target filename
(`none` = success, `some msg` = the raised exception's message). -/
structure Env where
  isFile : String → Bool
  openResult : Except String Doc
  saveResult : String → Option String

/-! ### Output files -/

/-- The output directory's files: filename to written content. -/
abbrev FileMap : Type :=
  String → Option Pixmap

/-- Writing one file (overwrites silently). -/
def updateFM (m : FileMap) (k : String) (v : Pixmap) : FileMap :=
  fun k' => if k' = k then some v else m k'

/-- Applying a sequence of writes in order. -/
def applyWrites : FileMap → List (String × Pixmap) → FileMap
  | m, [] => m
  | m, (k, v) :: l => applyWrites (updateFM m k v) l

/-- The last value written to `key` by the sequence, if any. -/
def lastWrite : List (String × Pixmap) → String → Option Pixmap
  | [], _ => none
  | (k, v) :: l, key =>
    match lastWrite l key with
    | some w => some w
    | none => if key = k then some v else none

/-! ### The converter -/

/-- Observable events of a run, in order: the validation error message,
the `mkdir(parents=..., exist_ok=...)` call, the open-error message
(carrying the wrapped cause), the start banner, each page's rasterize
step, save attempt and save outcome, the close of the document, and the
completion banner. -/
inductive Ev where
  | invalidInput (path : String)
  | mkdirOut (dir : String) (parents existOk : Bool)
  | openErr (path : String) (cause : String)
  | startMsg (path : String) (pages : Nat)
  | render (page : Nat) (m : Matrix) (pix : Pixmap)
  | saveAttempt (page1 : Nat) (filename : String)
  | savedOk (page1 : Nat) (filename : String)
  | saveErrMsg (page1 : Nat) (cause : String)
  | closeDoc
  | doneMsg (dir : String)
deriving DecidableEq

/-- The target filename for 0-based page `n`:
`output_folder / f"master_page_{page_num + 1}.{img_format}"`. -/
def pageFilename (output_folder : String) (n : Nat) (img_format : String) : String :=
  output_folder ++ "/master_page_" ++ decStr (n + 1) ++ "." ++ img_format

/-- One iteration of the page loop, as events: load/rasterize the page,
attempt the save, then report success or failure. -/
def pageEvents (env : Env) (doc : Doc) (output_folder img_format : String)
    (mat : Matrix) (n : Nat) : List Ev :=
  let pix := getPixmap doc n mat
  let fn := pageFilename output_folder n img_format
  [Ev.render n mat pix, Ev.saveAttempt (n + 1) fn] ++
    match env.saveResult fn with
    | none => [Ev.savedOk (n + 1) fn]
    | some msg => [Ev.saveErrMsg (n + 1) msg]

/-- One iteration of the page loop, as a file write: the written file,
when the save succeeds. -/
def pageWrite (env : Env) (doc : Doc) (output_folder img_format : String)
    (mat : Matrix) (n : Nat) : Option (String × Pixmap) :=
  let pix := getPixmap doc n mat
  let fn := pageFilename output_folder n img_format
  match env.saveResult fn with
  | none => some (fn, pix)
  | some _ => none

/-- Result of one run: the process exit code (`0` on normal completion,
`1` via `sys.exit(1)`), the ordered event trace, and the output
directory's files afterwards. -/
structure ConvResult where
  exit : Nat
  trace : List Ev
  files : FileMap

/-- Embedding of `convert_pdf_to_images(pdf_path_str, output_folder_str, dpi, img_format)`:

1. validate: `not pdf_path.is_file() or pdf_path.suffix.lower() != '.pdf'`
   reports the error and exits `1`;
2. `output_folder.mkdir(parents=True, exist_ok=True)`;
3. `fitz.open(pdf_path)`, reporting the error and exiting `1` on failure;
4. `scale_factor = dpi / 72.0`, `mat = fitz.Matrix(scale_factor, scale_factor)`;
5. for each `page_num in range(doc.page_count)`: rasterize with `mat`,
   save to `master_page_{page_num+1}.{img_format}`, report success or
   failure and continue;
6. close the document and report completion (normal exit, code `0`). -/
def convert_pdf_to_images (env : Env) (files0 : FileMap)
    (pdf_path output_folder : String) (dpi : Int) (img_format : String) :
    ConvResult :=
  if (! env.isFile pdf_path) || (strLower (suffixOf pdf_path) != ".pdf") then
    { exit := 1, trace := [Ev.invalidInput pdf_path], files := files0 }
  else
    match env.openResult with
    | Except.error e =>
      { exit := 1
        trace := [Ev.mkdirOut output_folder true true, Ev.openErr pdf_path e]
        files := files0 }
    | Except.ok doc =>
      let scale_factor : ℚ := (dpi : ℚ) / 72
      let mat := fitzMatrixZoom scale_factor scale_factor
      { exit := 0
        trace :=
          [Ev.mkdirOut output_folder true true,
           Ev.startMsg pdf_path doc.pageCount] ++
          (List.range doc.pageCount).flatMap
            (pageEvents env doc output_folder img_format mat) ++
          [Ev.closeDoc, Ev.doneMsg output_folder]
        files :=
          applyWrites files0
            ((List.range doc.pageCount).filterMap
              (pageWrite env doc output_folder img_format mat)) }

/-- The validation guard of step 1, stated positively: the source is an
existing regular file and its suffix, lowered, is `.pdf`. -/
def validInput (env : Env) (pdf_path : String) : Prop :=
  env.isFile pdf_path = true ∧ strLower (suffixOf pdf_path) = ".pdf"

instance (env : Env) (p : String) : Decidable (validInput env p) :=
  inferInstanceAs (Decidable (_ ∧ _))

/-- Value of a decimal digit string, reading `'0'..'9'` positionally. -/
def decVal (l : List Char) : Nat :=
  l.foldl (fun a c => 10 * a + (c.toNat - 48)) 0

/-- Extracting a save-attempt event: the 1-based page number and the
target filename of the attempt. -/
def attemptOf : Ev → Option (Nat × String)
  | Ev.saveAttempt k fn => some (k, fn)
  | _ => none

/-- Recognizing a successful-save report. -/
def isSavedOk : Ev → Bool
  | Ev.savedOk _ _ => true
  | _ => false

/-- Recognizing a failed-save report. -/
def isSaveErr : Ev → Bool
  | Ev.saveErrMsg _ _ => true
  | _ => false

/-! ### Concrete fixtures used to instantiate the theorems -/

/-- A 3-page document with US-Letter geometry at 72 DPI and truncation
as the rounding convention. -/
def doc3 : Doc :=
  ⟨3, fun _ => 612, fun _ => 792, fun q => q.num.toNat / q.den⟩

/-- A zero-page document. -/
def doc0 : Doc :=
  ⟨0, fun _ => 612, fun _ => 792, fun q => q.num.toNat / q.den⟩

/-- A world where the source exists, opens as `doc3`, and every save
succeeds. -/
def env3 : Env :=
  ⟨fun _ => true, Except.ok doc3, fun _ => none⟩

/-- A world where the source exists and opens as the zero-page `doc0`. -/
def env0 : Env :=
  ⟨fun _ => true, Except.ok doc0, fun _ => none⟩

/-- A world where saving page 2's file fails and the other saves
succeed. -/
def envFail : Env :=
  ⟨fun _ => true, Except.ok doc3,
    fun fn => if fn = "out/master_page_2.png" then some "unsupported format" else none⟩

/-- A world where the source exists but cannot be parsed as a PDF. -/
def envErr : Env :=
  ⟨fun _ => true, Except.error "cannot open broken file", fun _ => none⟩

/-- A world where the source path is not an existing regular file. -/
def envBad : Env :=
  ⟨fun _ => false, Except.ok doc3, fun _ => none⟩

/-- An empty output directory. -/
def emptyFM : FileMap :=
  fun _ => none

/-! ### The decimal rendering is faithful: a left inverse -/

theorem decVal_append_digit (l : List Char) (c : Char) :
    decVal (l ++ [c]) = 10 * decVal l + (c.toNat - 48) := by
  simp [decVal, List.foldl_append]

theorem digitChar_val (n : Nat) (h : n < 10) : (Nat.digitChar n).toNat - 48 = n := by
  interval_cases n <;> rfl

theorem decVal_decDigitsCore (fuel : Nat) :
    ∀ n : Nat, n < fuel → decVal (decDigitsCore fuel n) = n := by
  induction fuel with
  | zero => omega
  | succ f ih =>
    intro n hn
    rw [decDigitsCore]
    by_cases h10 : n < 10
    · simp [h10, decVal, digitChar_val n h10]
    · have hdiv : n / 10 < n := Nat.div_lt_self (by omega) (by omega)
      rw [if_neg h10, decVal_append_digit, ih (n / 10) (by omega),
        digitChar_val (n % 10) (Nat.mod_lt _ (by omega))]
      omega

theorem decVal_decDigits (n : Nat) : decVal (decDigits n) = n :=
  decVal_decDigitsCore (n + 1) n (Nat.lt_succ_self n)

theorem decDigits_injective : Function.Injective decDigits := by
  intro a b h
  have := decVal_decDigits a
  rw [h, decVal_decDigits] at this
  omega

theorem decStr_injective : Function.Injective decStr := by
  intro a b h
  exact decDigits_injective (congrArg String.data h)

theorem str_data_append (s t : String) : (s ++ t).data = s.data ++ t.data :=
  rfl

theorem pageFilename_inj {out fmt : String} {a b : Nat}
    (h : pageFilename out a fmt = pageFilename out b fmt) : a = b := by
  have hd := congrArg String.data h
  simp only [pageFilename, str_data_append] at hd
  have h1 := List.append_cancel_right hd
  have h2 := List.append_cancel_right h1
  have h3 := List.append_cancel_left h2
  have := decStr_injective (String.ext h3)
  omega

theorem pageFilename_injective (out fmt : String) :
    Function.Injective (fun n => pageFilename out n fmt) :=
  fun _ _ h => pageFilename_inj h

/-! ### Facts about the write sequence -/

theorem applyWrites_apply (l : List (String × Pixmap)) (f : FileMap) (k : String) :
    applyWrites f l k =
      match lastWrite l k with
      | some v => some v
      | none => f k := by
  induction l generalizing f with
  | nil => rfl
  | cons p l ih =>
    obtain ⟨k0, v0⟩ := p
    rw [applyWrites, ih, lastWrite]
    cases lastWrite l k with
    | some w => rfl
    | none => by_cases hk : k = k0 <;> simp [updateFM, hk]

theorem applyWrites_idem (l : List (String × Pixmap)) (f : FileMap) :
    applyWrites (applyWrites f l) l = applyWrites f l := by
  funext k
  rw [applyWrites_apply, applyWrites_apply]
  cases h : lastWrite l k <;> simp [applyWrites_apply, h]

/-! ### List bookkeeping helpers -/

theorem filterMap_flatMap {α β γ : Type} (l : List α) (g : α → List β)
    (f : β → Option γ) :
    (l.flatMap g).filterMap f = l.flatMap fun a => (g a).filterMap f := by
  induction l with
  | nil => rfl
  | cons a l ih => simp [List.flatMap_cons, List.filterMap_append, ih]

theorem flatMap_single {α β : Type} (l : List α) (g : α → β) :
    (l.flatMap fun a => [g a]) = l.map g := by
  induction l with
  | nil => rfl
  | cons a l ih => simp [List.flatMap_cons, ih]

theorem countP_flatMap {α β : Type} (l : List α) (g : α → List β) (p : β → Bool) :
    (l.flatMap g).countP p = (l.map fun a => (g a).countP p).sum := by
  induction l with
  | nil => rfl
  | cons a l ih => simp [List.flatMap_cons, List.countP_append, ih]

theorem countP_eq_sum_map {α : Type} (l : List α) (p : α → Bool) :
    l.countP p = (l.map fun a => if p a then 1 else 0).sum := by
  induction l with
  | nil => rfl
  | cons a l ih => by_cases h : p a <;> simp [List.countP_cons, h, ih, Nat.add_comm]

theorem length_filterMap {α β : Type} (l : List α) (f : α → Option β) :
    (l.filterMap f).length = l.countP fun a => (f a).isSome := by
  induction l with
  | nil => rfl
  | cons a l ih =>
    cases h : f a <;> simp [List.filterMap_cons, h, List.countP_cons, ih]

theorem sum_map_const_range (N b : Nat) :
    ((List.range N).map fun _ => b).sum = N * b := by
  induction N with
  | zero => simp
  | succ N ih => rw [List.range_succ]; simp [ih, Nat.succ_mul]

theorem sum_map_range_ite (N j a b : Nat) (hj : j < N) :
    ((List.range N).map fun i => if i = j then a else b).sum = a + (N - 1) * b := by
  induction N with
  | zero => omega
  | succ N ih =>
    rw [List.range_succ, List.map_append, List.sum_append]
    by_cases h : j = N
    · subst h
      have hcongr : ((List.range j).map fun i => if i = j then a else b)
          = (List.range j).map fun _ => b := by
        apply List.map_congr_left
        intro i hi
        rw [if_neg (by exact Nat.ne_of_lt (List.mem_range.mp hi))]
      rw [hcongr, sum_map_const_range]
      simp [Nat.add_comm]
    · have hjN : j < N := by omega
      rw [ih hjN]
      simp only [List.map_cons, List.map_nil, List.sum_cons, List.sum_nil,
        if_neg (fun hc : N = j => h hc.symm)]
      rw [show N + 1 - 1 = N from rfl]
      have h2 : (N - 1) * b + b = N * b := by
        calc (N - 1) * b + b = (N - 1 + 1) * b := (Nat.succ_mul _ _).symm
          _ = N * b := by rw [show N - 1 + 1 = N by omega]
      omega

/-! ### Unfolding the converter on its three control paths -/

theorem guard_eq_false (env : Env) (p : String) (hv : validInput env p) :
    ((! env.isFile p) || (strLower (suffixOf p) != ".pdf")) = false := by
  obtain ⟨h1, h2⟩ := hv
  simp [h1, h2]

theorem guard_eq_true (env : Env) (p : String) (hv : ¬ validInput env p) :
    ((! env.isFile p) || (strLower (suffixOf p) != ".pdf")) = true := by
  by_cases h1 : env.isFile p = true
  · have h2 : strLower (suffixOf p) ≠ ".pdf" := fun h2 => hv ⟨h1, h2⟩
    simp [h1, h2]
  · simp [Bool.not_eq_true] at h1
    simp [h1]

theorem convert_invalid (env : Env) (p out : String) (dpi : Int) (fmt : String)
    (hv : ¬ validInput env p) :
    ∀ files0 : FileMap,
      convert_pdf_to_images env files0 p out dpi fmt =
        { exit := 1, trace := [Ev.invalidInput p], files := files0 } := by
  intro files0
  unfold convert_pdf_to_images
  rw [guard_eq_true env p hv]
  simp

theorem convert_openerr (env : Env) (p out : String) (dpi : Int) (fmt : String)
    (e : String) (hv : validInput env p)
    (he : env.openResult = Except.error e) :
    ∀ files0 : FileMap,
      convert_pdf_to_images env files0 p out dpi fmt =
        { exit := 1
          trace := [Ev.mkdirOut out true true, Ev.openErr p e]
          files := files0 } := by
  intro files0
  unfold convert_pdf_to_images
  rw [guard_eq_false env p hv, he]
  simp

theorem convert_ok (env : Env) (p out : String) (dpi : Int) (fmt : String)
    (doc : Doc) (hv : validInput env p)
    (hd : env.openResult = Except.ok doc) :
    ∀ files0 : FileMap,
      convert_pdf_to_images env files0 p out dpi fmt =
        { exit := 0
          trace :=
            [Ev.mkdirOut out true true, Ev.startMsg p doc.pageCount] ++
            (List.range doc.pageCount).flatMap
              (pageEvents env doc out fmt
                (fitzMatrixZoom ((dpi : ℚ) / 72) ((dpi : ℚ) / 72))) ++
            [Ev.closeDoc, Ev.doneMsg out]
          files :=
            applyWrites files0
              ((List.range doc.pageCount).filterMap
                (pageWrite env doc out fmt
                  (fitzMatrixZoom ((dpi : ℚ) / 72) ((dpi : ℚ) / 72)))) } := by
  intro files0
  unfold convert_pdf_to_images
  rw [guard_eq_false env p hv, hd]
  simp

/-! ### Dissecting the page-loop events -/

theorem render_in_pageEvents (env : Env) (doc : Doc) (out fmt : String)
    (mat : Matrix) (i n : Nat) (m : Matrix) (pix : Pixmap)
    (h : Ev.render n m pix ∈ pageEvents env doc out fmt mat i) :
    n = i ∧ m = mat ∧ pix = getPixmap doc i mat := by
  simp only [pageEvents] at h
  rcases hs : env.saveResult (pageFilename out i fmt) with _ | msg <;>
    rw [hs] at h <;> simp at h <;> exact h

theorem render_in_trace (env : Env) (files0 : FileMap) (p out : String)
    (dpi : Int) (fmt : String) (doc : Doc) (hv : validInput env p)
    (hok : env.openResult = Except.ok doc) (n : Nat) (m : Matrix) (pix : Pixmap)
    (h : Ev.render n m pix ∈ (convert_pdf_to_images env files0 p out dpi fmt).trace) :
    n < doc.pageCount
    ∧ m = fitzMatrixZoom ((dpi : ℚ) / 72) ((dpi : ℚ) / 72)
    ∧ pix = getPixmap doc n (fitzMatrixZoom ((dpi : ℚ) / 72) ((dpi : ℚ) / 72)) := by
  rw [convert_ok env p out dpi fmt doc hv hok files0] at h
  rcases List.mem_append.mp h with h | h
  · rcases List.mem_append.mp h with h | h
    · simp at h
    · rcases List.mem_flatMap.mp h with ⟨i, hi, hin⟩
      obtain ⟨hn, hm, hpix⟩ := render_in_pageEvents env doc out fmt _ i n m pix hin
      subst hn
      exact ⟨List.mem_range.mp hi, hm, hpix⟩
  · simp at h

theorem attempts_in_pageEvents (env : Env) (doc : Doc) (out fmt : String)
    (mat : Matrix) (i : Nat) :
    (pageEvents env doc out fmt mat i).filterMap attemptOf
      = [(i + 1, pageFilename out i fmt)] := by
  simp only [pageEvents]
  rcases env.saveResult (pageFilename out i fmt) with _ | msg <;> simp [attemptOf]

/-! ### C1 -/

/-- C1: for a document that opens with `N` pages, the run performs exactly
`N` save attempts, one per page in ascending page order, with 1-based
indices `1..N`, each targeting `{output}/master_page_{index+1}.{format}`
with the extension verbatim from the format argument; the target
filenames are pairwise distinct, so none collide within the run. -/
theorem save_attempts_exact (env : Env) (files0 : FileMap) (p out : String)
    (dpi : Int) (fmt : String) (doc : Doc)
    (hv : validInput env p) (hok : env.openResult = Except.ok doc) :
    (convert_pdf_to_images env files0 p out dpi fmt).trace.filterMap attemptOf
      = (List.range doc.pageCount).map (fun i => (i + 1, pageFilename out i fmt))
    ∧ ((List.range doc.pageCount).map (fun i => pageFilename out i fmt)).Nodup := by
  constructor
  · rw [convert_ok env p out dpi fmt doc hv hok files0]
    rw [List.filterMap_append, List.filterMap_append, filterMap_flatMap]
    simp only [attempts_in_pageEvents, flatMap_single]
    simp [attemptOf]
  · exact (List.nodup_range doc.pageCount).map (pageFilename_injective out fmt)

/-- Witness for C1: a 3-page document yields exactly the three attempts
`master_page_1.png`, `master_page_2.png`, `master_page_3.png`, in order. -/
theorem save_attempts_exact_witness :
    validInput env3 "in.pdf"
    ∧ (convert_pdf_to_images env3 emptyFM "in.pdf" "out" 300 "png").trace.filterMap
        attemptOf
      = (List.range doc3.pageCount).map (fun i => (i + 1, pageFilename "out" i "png")) :=
  ⟨by decide,
    (save_attempts_exact env3 emptyFM "in.pdf" "out" 300 "png" doc3 (by decide) rfl).1⟩

/-! ### C2 -/

/-- C2: for DPI `d > 0`, every rasterization in a successful run is
performed with the matrix `fitz.Matrix(d / 72, d / 72)` — the scale
factor `d / 72` exactly, applied uniformly to both axes — and the
resulting pixel dimensions are the page's base 72-DPI dimensions
multiplied by that factor, rounded by the rendering collaborator's
convention. -/
theorem dpi_scale_uniform (env : Env) (files0 : FileMap) (p out : String)
    (dpi : Int) (fmt : String) (doc : Doc) (_hdpi : 0 < dpi)
    (hv : validInput env p) (hok : env.openResult = Except.ok doc) :
    ∀ n m pix,
      Ev.render n m pix ∈ (convert_pdf_to_images env files0 p out dpi fmt).trace →
        m.a = (dpi : ℚ) / 72 ∧ m.d = (dpi : ℚ) / 72
        ∧ m = fitzMatrixZoom ((dpi : ℚ) / 72) ((dpi : ℚ) / 72)
        ∧ pix.width = doc.pixRound (doc.pageWidth n * ((dpi : ℚ) / 72))
        ∧ pix.height = doc.pixRound (doc.pageHeight n * ((dpi : ℚ) / 72)) := by
  intro n m pix h
  obtain ⟨_, hm, hpix⟩ :=
    render_in_trace env files0 p out dpi fmt doc hv hok n m pix h
  subst hm
  subst hpix
  exact ⟨rfl, rfl, rfl, rfl, rfl⟩

/-- Witness for C2 at 300 DPI: page 0 of the 3-page document is rendered
with the uniform matrix of scale `300 / 72`. -/
theorem dpi_scale_uniform_witness :
    0 < (300 : Int)
    ∧ validInput env3 "in.pdf"
    ∧ (fitzMatrixZoom (((300 : Int) : ℚ) / 72) (((300 : Int) : ℚ) / 72)).a
        = ((300 : Int) : ℚ) / 72 :=
  ⟨by decide, by decide,
    (dpi_scale_uniform env3 emptyFM "in.pdf" "out" 300 "png" doc3 (by decide)
      (by decide) rfl 0
      (fitzMatrixZoom (((300 : Int) : ℚ) / 72) (((300 : Int) : ℚ) / 72))
      (getPixmap doc3 0
        (fitzMatrixZoom (((300 : Int) : ℚ) / 72) (((300 : Int) : ℚ) / 72)))
      (List.Mem.tail _ (List.Mem.tail _ (List.Mem.head _)))).1⟩

/-! ### C3 -/

theorem saveErr_count_in_pageEvents (env : Env) (doc : Doc) (out fmt : String)
    (mat : Matrix) (i j : Nat) (msg : String)
    (hfail : env.saveResult (pageFilename out j fmt) = some msg)
    (hrest : i ≠ j → env.saveResult (pageFilename out i fmt) = none) :
    (pageEvents env doc out fmt mat i).countP isSaveErr
      = (if i = j then 1 else 0)
    ∧ (pageEvents env doc out fmt mat i).countP isSavedOk
      = (if i = j then 0 else 1)
    ∧ ((pageWrite env doc out fmt mat i).isSome = true ↔ ¬ i = j) := by
  by_cases hij : i = j
  · subst hij
    simp [pageEvents, pageWrite, hfail, isSaveErr, isSavedOk, List.countP_cons]
  · simp [pageEvents, pageWrite, hrest hij, isSaveErr, isSavedOk,
      List.countP_cons, hij]

/-- C3: a failure to save one page's image is non-fatal: the failure is
reported with the 1-based page number and the exception's message, the
loop continues, and with exactly one failing page among `N` the run
reports `N - 1` successful saves and exactly one failure, writes `N - 1`
output files, and still reaches normal completion with exit code 0. -/
theorem single_save_failure (env : Env) (files0 : FileMap) (p out : String)
    (dpi : Int) (fmt : String) (doc : Doc) (j : Nat) (msg : String)
    (hv : validInput env p) (hok : env.openResult = Except.ok doc)
    (hj : j < doc.pageCount)
    (hfail : env.saveResult (pageFilename out j fmt) = some msg)
    (hrest : ∀ i, i < doc.pageCount → i ≠ j →
      env.saveResult (pageFilename out i fmt) = none) :
    (convert_pdf_to_images env files0 p out dpi fmt).exit = 0
    ∧ (convert_pdf_to_images env files0 p out dpi fmt).trace.countP isSaveErr = 1
    ∧ (convert_pdf_to_images env files0 p out dpi fmt).trace.countP isSavedOk
        = doc.pageCount - 1
    ∧ (convert_pdf_to_images env files0 p out dpi fmt).files
        = applyWrites files0
            ((List.range doc.pageCount).filterMap
              (pageWrite env doc out fmt
                (fitzMatrixZoom ((dpi : ℚ) / 72) ((dpi : ℚ) / 72))))
    ∧ ((List.range doc.pageCount).filterMap
        (pageWrite env doc out fmt
          (fitzMatrixZoom ((dpi : ℚ) / 72) ((dpi : ℚ) / 72)))).length
        = doc.pageCount - 1
    ∧ Ev.saveErrMsg (j + 1) msg ∈ (convert_pdf_to_images env files0 p out dpi fmt).trace
    ∧ Ev.doneMsg out ∈ (convert_pdf_to_images env files0 p out dpi fmt).trace := by
  have hconv := convert_ok env p out dpi fmt doc hv hok files0
  set mat := fitzMatrixZoom ((dpi : ℚ) / 72) ((dpi : ℚ) / 72) with hmat
  refine ⟨by rw [hconv], ?_, ?_, by rw [hconv], ?_, ?_, ?_⟩
  · rw [hconv]
    simp only [List.countP_append, countP_flatMap]
    have hcongr : (List.range doc.pageCount).map
          (fun i => (pageEvents env doc out fmt mat i).countP isSaveErr)
        = (List.range doc.pageCount).map (fun i => if i = j then 1 else 0) := by
      apply List.map_congr_left
      intro i hi
      exact (saveErr_count_in_pageEvents env doc out fmt mat i j msg hfail
        (hrest i (List.mem_range.mp hi))).1
    rw [hcongr, sum_map_range_ite _ _ _ _ hj]
    simp [isSaveErr, List.countP_cons]
  · rw [hconv]
    simp only [List.countP_append, countP_flatMap]
    have hcongr : (List.range doc.pageCount).map
          (fun i => (pageEvents env doc out fmt mat i).countP isSavedOk)
        = (List.range doc.pageCount).map (fun i => if i = j then 0 else 1) := by
      apply List.map_congr_left
      intro i hi
      exact (saveErr_count_in_pageEvents env doc out fmt mat i j msg hfail
        (hrest i (List.mem_range.mp hi))).2.1
    rw [hcongr, sum_map_range_ite _ _ _ _ hj]
    simp [isSavedOk, List.countP_cons]
  · rw [length_filterMap, countP_eq_sum_map]
    have hcongr : (List.range doc.pageCount).map
          (fun i => if (pageWrite env doc out fmt mat i).isSome then 1 else 0)
        = (List.range doc.pageCount).map (fun i => if i = j then 0 else 1) := by
      apply List.map_congr_left
      intro i hi
      have hiff := (saveErr_count_in_pageEvents env doc out fmt mat i j msg hfail
        (hrest i (List.mem_range.mp hi))).2.2
      by_cases hij : i = j
      · rcases hpw : pageWrite env doc out fmt mat i with _ | v
        · simp [hpw, hij]
        · exact absurd hij (hiff.mp (by rw [hpw]; rfl))
      · simp [hiff.mpr hij, hij]
    rw [hcongr, sum_map_range_ite _ _ _ _ hj]
    simp
  · rw [hconv]
    apply List.mem_append_left
    apply List.mem_append_right
    apply List.mem_flatMap.mpr
    refine ⟨j, List.mem_range.mpr hj, ?_⟩
    simp [pageEvents, hfail]
  · rw [hconv]
    apply List.mem_append_right
    simp

/-- Witness for C3: three pages with `master_page_2.png` failing to save
still exit with code 0. -/
theorem single_save_failure_witness :
    validInput envFail "in.pdf"
    ∧ (convert_pdf_to_images envFail emptyFM "in.pdf" "out" 300 "png").exit = 0 :=
  ⟨by decide,
    (single_save_failure envFail emptyFM "in.pdf" "out" 300 "png" doc3 1
      "unsupported format" (by decide) rfl (by decide) (by decide) (by decide)).1⟩

/-! ### C4 -/

/-- C4: input validation fails — reporting the user-facing message and
terminating with exit code 1 — exactly when the source path is not an
existing regular file or its extension, lowered, is not `.pdf`; on every
valid source the run proceeds past validation (its first action is the
output-directory creation). -/
theorem validation_exact (env : Env) (files0 : FileMap) (p out : String)
    (dpi : Int) (fmt : String) :
    (((convert_pdf_to_images env files0 p out dpi fmt).trace = [Ev.invalidInput p]
        ∧ (convert_pdf_to_images env files0 p out dpi fmt).exit = 1)
      ↔ ¬ (env.isFile p = true ∧ strLower (suffixOf p) = ".pdf"))
    ∧ (env.isFile p = true ∧ strLower (suffixOf p) = ".pdf" →
        (convert_pdf_to_images env files0 p out dpi fmt).trace.head?
          = some (Ev.mkdirOut out true true)) := by
  constructor
  · constructor
    · rintro ⟨htr, _⟩ hv
      rcases he : env.openResult with e | doc
      · rw [convert_openerr env p out dpi fmt e hv he files0] at htr
        simp at htr
      · rw [convert_ok env p out dpi fmt doc hv he files0] at htr
        simp at htr
    · intro hv
      rw [convert_invalid env p out dpi fmt hv files0]
      exact ⟨rfl, rfl⟩
  · intro hv
    rcases he : env.openResult with e | doc
    · rw [convert_openerr env p out dpi fmt e hv he files0]
      rfl
    · rw [convert_ok env p out dpi fmt doc hv he files0]
      rfl

/-- Witness for C4: a missing source file yields exactly the validation
error trace. -/
theorem validation_exact_witness :
    (convert_pdf_to_images envBad emptyFM "missing.pdf" "out" 300 "png").trace
      = [Ev.invalidInput "missing.pdf"] :=
  ((validation_exact envBad emptyFM "missing.pdf" "out" 300 "png").1.mpr
    (by decide)).1

/-! ### C5 -/

/-- C5: the output directory is created (with `parents=True`,
`exist_ok=True`, so missing parents are created and an existing directory
is accepted silently) only after validation succeeds — it is the first
action of every valid run, and no invalid run performs any directory
creation. -/
theorem mkdir_gated (env : Env) (files0 : FileMap) (p out : String)
    (dpi : Int) (fmt : String) :
    (¬ validInput env p →
      ∀ d a b, Ev.mkdirOut d a b ∉
        (convert_pdf_to_images env files0 p out dpi fmt).trace)
    ∧ (validInput env p →
      (convert_pdf_to_images env files0 p out dpi fmt).trace.head?
        = some (Ev.mkdirOut out true true)) := by
  constructor
  · intro hv d a b hmem
    rw [convert_invalid env p out dpi fmt hv files0] at hmem
    simp at hmem
  · intro hv
    rcases he : env.openResult with e | doc
    · rw [convert_openerr env p out dpi fmt e hv he files0]
      rfl
    · rw [convert_ok env p out dpi fmt doc hv he files0]
      rfl

/-- Witness for C5: with a missing source no directory creation happens;
with a valid source it is the run's first action. -/
theorem mkdir_gated_witness :
    (Ev.mkdirOut "out" true true ∉
      (convert_pdf_to_images envBad emptyFM "missing.pdf" "out" 300 "png").trace)
    ∧ (convert_pdf_to_images env3 emptyFM "in.pdf" "out" 300 "png").trace.head?
        = some (Ev.mkdirOut "out" true true) :=
  ⟨(mkdir_gated envBad emptyFM "missing.pdf" "out" 300 "png").1 (by decide)
      "out" true true,
    (mkdir_gated env3 emptyFM "in.pdf" "out" 300 "png").2 (by decide)⟩

/-! ### C6 -/

/-- C6: when a validated source cannot be opened as a PDF, the run
reports the open failure wrapping the underlying cause, exits with
code 1 before any page is processed — no save is attempted, nothing is
rendered — and writes no output file. -/
theorem open_failure_fatal (env : Env) (files0 : FileMap) (p out : String)
    (dpi : Int) (fmt : String) (e : String)
    (hv : validInput env p) (he : env.openResult = Except.error e) :
    (convert_pdf_to_images env files0 p out dpi fmt).exit = 1
    ∧ Ev.openErr p e ∈ (convert_pdf_to_images env files0 p out dpi fmt).trace
    ∧ (convert_pdf_to_images env files0 p out dpi fmt).files = files0
    ∧ (∀ k fn, Ev.saveAttempt k fn ∉
        (convert_pdf_to_images env files0 p out dpi fmt).trace)
    ∧ (∀ n m pix, Ev.render n m pix ∉
        (convert_pdf_to_images env files0 p out dpi fmt).trace) := by
  rw [convert_openerr env p out dpi fmt e hv he files0]
  refine ⟨rfl, by simp, rfl, ?_, ?_⟩
  · intro k fn hmem
    simp at hmem
  · intro n m pix hmem
    simp at hmem

/-- Witness for C6: a corrupt file exits with code 1. -/
theorem open_failure_fatal_witness :
    validInput envErr "in.pdf"
    ∧ (convert_pdf_to_images envErr emptyFM "in.pdf" "out" 300 "png").exit = 1 :=
  ⟨by decide,
    (open_failure_fatal envErr emptyFM "in.pdf" "out" 300 "png"
      "cannot open broken file" (by decide) rfl).1⟩

/-! ### C7 -/

/-- C7: running the conversion twice with the same source, output
directory, DPI and format — the second run starting from the files the
first run left — overwrites the identically-named files with the same
(deterministically rendered) content and leaves exactly the file set of
a single run; the second run's observable trace is also identical. -/
theorem convert_idempotent (env : Env) (files0 : FileMap) (p out : String)
    (dpi : Int) (fmt : String) :
    (convert_pdf_to_images env
        ((convert_pdf_to_images env files0 p out dpi fmt).files) p out dpi fmt).files
      = (convert_pdf_to_images env files0 p out dpi fmt).files
    ∧ (convert_pdf_to_images env
        ((convert_pdf_to_images env files0 p out dpi fmt).files) p out dpi fmt).trace
      = (convert_pdf_to_images env files0 p out dpi fmt).trace := by
  by_cases hv : validInput env p
  · rcases he : env.openResult with e | doc
    · simp only [convert_openerr env p out dpi fmt e hv he]
      exact ⟨trivial, trivial⟩
    · simp only [convert_ok env p out dpi fmt doc hv he]
      exact ⟨applyWrites_idem _ _, trivial⟩
  · simp only [convert_invalid env p out dpi fmt hv]
    exact ⟨trivial, trivial⟩

/-! ### C8 -/

/-- C8: the `dpi` parameter is never validated: for every integer `dpi`,
including 0 and negative values, a run on a valid, openable source
accepts it, completes normally with exit code 0, and uses the scale
factor `dpi / 72` as-is for every rasterization. -/
theorem dpi_never_validated (env : Env) (files0 : FileMap) (p out : String)
    (dpi : Int) (fmt : String) (doc : Doc)
    (hv : validInput env p) (hok : env.openResult = Except.ok doc) :
    (convert_pdf_to_images env files0 p out dpi fmt).exit = 0
    ∧ Ev.doneMsg out ∈ (convert_pdf_to_images env files0 p out dpi fmt).trace
    ∧ ∀ n m pix,
        Ev.render n m pix ∈ (convert_pdf_to_images env files0 p out dpi fmt).trace →
          m = fitzMatrixZoom ((dpi : ℚ) / 72) ((dpi : ℚ) / 72) := by
  refine ⟨?_, ?_, ?_⟩
  · rw [convert_ok env p out dpi fmt doc hv hok files0]
  · rw [convert_ok env p out dpi fmt doc hv hok files0]
    apply List.mem_append_right
    simp
  · intro n m pix h
    exact (render_in_trace env files0 p out dpi fmt doc hv hok n m pix h).2.1

/-- Witness for C8 at the non-positive DPI value `-5`: the run still
exits with code 0. -/
theorem dpi_never_validated_witness :
    validInput env3 "in.pdf"
    ∧ (convert_pdf_to_images env3 emptyFM "in.pdf" "out" (-5) "png").exit = 0 :=
  ⟨by decide,
    (dpi_never_validated env3 emptyFM "in.pdf" "out" (-5) "png" doc3
      (by decide) rfl).1⟩

/-! ### C9 -/

/-- C9: on every input that passes validation the output directory is
created first, before the document is opened; hence when the open fails
the process exits with code 1 with the directory-creation side effect
already performed and persisting. -/
theorem mkdir_precedes_open (env : Env) (files0 : FileMap) (p out : String)
    (dpi : Int) (fmt : String) (hv : validInput env p) :
    (convert_pdf_to_images env files0 p out dpi fmt).trace.head?
      = some (Ev.mkdirOut out true true)
    ∧ ∀ e, env.openResult = Except.error e →
        (convert_pdf_to_images env files0 p out dpi fmt).exit = 1
        ∧ Ev.mkdirOut out true true ∈
            (convert_pdf_to_images env files0 p out dpi fmt).trace := by
  constructor
  · rcases he : env.openResult with e | doc
    · rw [convert_openerr env p out dpi fmt e hv he files0]
      rfl
    · rw [convert_ok env p out dpi fmt doc hv he files0]
      rfl
  · intro e he
    rw [convert_openerr env p out dpi fmt e hv he files0]
    exact ⟨rfl, by simp⟩

/-- Witness for C9: with an unparsable source, exit code 1 is reached
with the directory-creation event in the trace. -/
theorem mkdir_precedes_open_witness :
    validInput envErr "in.pdf"
    ∧ (convert_pdf_to_images envErr emptyFM "in.pdf" "out" 300 "png").exit = 1
    ∧ Ev.mkdirOut "out" true true ∈
        (convert_pdf_to_images envErr emptyFM "in.pdf" "out" 300 "png").trace :=
  ⟨by decide,
    (mkdir_precedes_open envErr emptyFM "in.pdf" "out" 300 "png" (by decide)).2
      "cannot open broken file" rfl⟩

/-! ### C10 -/

/-- C10: a valid PDF that opens with zero pages runs the page loop zero
times: the run is exactly directory creation, the start banner with page
count 0, the document close and the completion banner; no output file is
written and the exit code is 0. -/
theorem zero_pages_completion (env : Env) (files0 : FileMap) (p out : String)
    (dpi : Int) (fmt : String) (doc : Doc)
    (hv : validInput env p) (hok : env.openResult = Except.ok doc)
    (h0 : doc.pageCount = 0) :
    convert_pdf_to_images env files0 p out dpi fmt =
      { exit := 0
        trace := [Ev.mkdirOut out true true, Ev.startMsg p 0,
                  Ev.closeDoc, Ev.doneMsg out]
        files := files0 } := by
  rw [convert_ok env p out dpi fmt doc hv hok files0, h0]
  rfl

/-- Witness for C10: a zero-page document gives the four-event trace and
leaves the output directory empty. -/
theorem zero_pages_completion_witness :
    validInput env0 "in.pdf"
    ∧ convert_pdf_to_images env0 emptyFM "in.pdf" "out" 300 "png" =
        { exit := 0
          trace := [Ev.mkdirOut "out" true true, Ev.startMsg "in.pdf" 0,
                    Ev.closeDoc, Ev.doneMsg "out"]
          files := emptyFM } :=
  ⟨by decide,
    zero_pages_completion env0 emptyFM "in.pdf" "out" 300 "png" doc0
      (by decide) rfl rfl⟩

end PdfToImages
